import Mathlib

set_option maxRecDepth 100000

/-!
Shallow embedding of the yamux-style stream multiplexer found in
`internal/yamux` (frame codec, growable byte buffer, logical stream,
session lifecycle, reader-loop dispatch handlers), together with proofs
of the specification claims about it.

Bytes are modelled as `Nat` (values < 256 in well-formed data); Go's
`uint32` fields are `Nat` with explicit `% 2^32` where overflow can occur.
Concurrency (locks, channel blocking, timers) is modelled by explicit
state passing plus boolean oracles for the outcomes of bounded-channel
sends (`accepted`): the Go code's `select` on the outbound channel either
succeeds within `ConnectionWriteTimeout` or times out, which is exactly
the two values of the oracle.
-/

namespace Yamux

/-! ### Protocol constants (`const` block of the source) -/

def headerSize : Nat := 10

-- Message types: `typeData byte = iota; typeSYN; typeFIN; typeACK; typePING; typePONG`
def typeData : Nat := 0
def typeSYN  : Nat := 1
def typeFIN  : Nat := 2
def typeACK  : Nat := 3
def typePING : Nat := 4
def typePONG : Nat := 5

def defaultAcceptBacklog : Nat := 256

/-! ### Frame codec

`binary.BigEndian.PutUint32` writes the four big-endian bytes of a
`uint32`; `binary.BigEndian.Uint32` reads them back. -/

def putUint32BE (v : Nat) : List Nat :=
  [v / 2 ^ 24 % 256, v / 2 ^ 16 % 256, v / 2 ^ 8 % 256, v % 256]

def beBytesToNat (bs : List Nat) : Nat :=
  bs.foldl (fun acc b => acc * 256 + b) 0

/-- Every frame-emitting site in the source builds a 10-byte header the
same way: message type at offset 0, flags at offset 1, stream ID as
big-endian uint32 at offsets 2-5, length as big-endian uint32 at 6-9
(`make([]byte, headerSize)` zero-fills, so sites that only assign a few
bytes, like `handlePING`, still produce exactly this layout). -/
def mkHeader (msgType flags streamID length : Nat) : List Nat :=
  msgType :: flags :: (putUint32BE streamID ++ putUint32BE length)

/-! Decoding views of an emitted frame (the reader loop's
`header[0]`, `header[1]`, `Uint32(header[2:6])`, `Uint32(header[6:10])`). -/

def frameMsgType (fr : List Nat) : Nat := fr.getD 0 0
def frameFlags (fr : List Nat) : Nat := fr.getD 1 0
def frameStreamID (fr : List Nat) : Nat := beBytesToNat ((fr.drop 2).take 4)
def frameLength (fr : List Nat) : Nat := beBytesToNat ((fr.drop 6).take 4)

/-! ### Growable byte buffer (`buffer` struct)

`buf` models the Go slice's contents up to `len(buf)`; `capacity` models
`cap(buf)`. The single-slot wake `signal` channel is concurrency-only
(at most one blocked reader is woken) and has no sequential content, so
it is not part of the state; a `Read` that would block reports
`wouldBlock` with the state unchanged, which is the suspension point. -/

structure Buffer where
  buf : List Nat
  capacity : Nat
  rd : Nat
  wr : Nat
  closed : Bool
deriving DecidableEq, Repr

/-- `newBuffer`: `buf: make([]byte, 0, 64)` — length 0, capacity 64. -/
def newBuffer : Buffer :=
  { buf := [], capacity := 64, rd := 0, wr := 0, closed := false }

inductive ReadResult where
  | eof
  | bytes (data : List Nat)
  | wouldBlock
deriving DecidableEq, Repr

/-- Errors returned by the multiplexer (the source uses `fmt.Errorf`
with distinct messages; each distinct message is one constructor). -/
inductive YErr where
  | sessionClosed   -- "session closed"
  | writeTimeout    -- "write timeout"
  | streamClosed    -- "stream closed"
  | bufferClosed    -- "buffer closed"
  | acceptTimeout   -- "timeout waiting for new stream"
deriving DecidableEq, Repr

/-- The doubling loop of `buffer.Write`:
`newSize := cap(b.buf) * 2; for newSize < b.wr+len(p) { newSize *= 2 }`.
`fuel` only makes the Go `for` loop structurally recursive; `growSize`
below supplies `needed` units of fuel, which always suffices because the
capacity is positive and at least increments on every pass. -/
def growLoop : Nat → Nat → Nat → Nat
  | 0, cur, _ => cur
  | fuel + 1, cur, needed =>
      if cur < needed then growLoop fuel (cur * 2) needed else cur

def growSize (cur needed : Nat) : Nat := growLoop needed cur needed

/-- The growth block of `buffer.Write`: when `b.wr+len(p) > len(b.buf)`,
allocate `newBuf := make([]byte, newSize)` (zero-filled), copy the first
`b.wr` bytes over, and install it. -/
def Buffer.grow (b : Buffer) (plen : Nat) : Buffer :=
  if b.buf.length < b.wr + plen then
    let newSize := growSize (b.capacity * 2) (b.wr + plen)
    { b with buf := b.buf.take b.wr ++ List.replicate (newSize - b.wr) 0,
             capacity := newSize }
  else b

/-- `buffer.Write`: zero-length input returns `(0, nil)` before anything
else; a closed buffer returns an error; otherwise grow if needed, then
`n := copy(b.buf[b.wr:], p); b.wr += n`. Returns the new state, the
count written and the error. -/
def Buffer.write (b : Buffer) (p : List Nat) : Buffer × Nat × Option YErr :=
  if p.length = 0 then (b, 0, none)
  else if b.closed then (b, 0, some .bufferClosed)
  else
    let g := b.grow p.length
    let n := min p.length (g.buf.length - g.wr)
    ({ g with buf := g.buf.take g.wr ++ p.take n ++ g.buf.drop (g.wr + n),
              wr := g.wr + n }, n, none)

/-- `buffer.Read` into a destination of length `plen`: while
`b.rd >= b.wr` it returns EOF if closed, otherwise it suspends
(`wouldBlock`); else `n := copy(p, b.buf[b.rd:b.wr]); b.rd += n`, and
when `b.rd == b.wr` both cursors reset to 0 (compaction). -/
def Buffer.read (b : Buffer) (plen : Nat) : Buffer × ReadResult :=
  if b.wr ≤ b.rd then
    if b.closed then (b, .eof) else (b, .wouldBlock)
  else
    let n := min plen (b.wr - b.rd)
    let data := (b.buf.drop b.rd).take n
    if b.rd + n = b.wr then ({ b with rd := 0, wr := 0 }, .bytes data)
    else ({ b with rd := b.rd + n }, .bytes data)

/-- `buffer.Close`: idempotent; sets the closed flag (the wake signal is
concurrency-only). Returns nil in both branches in the source. -/
def Buffer.close (b : Buffer) : Buffer :=
  if b.closed then b else { b with closed := true }

/-- The bytes written but not yet consumed: `b.buf[b.rd:b.wr]`. -/
def Buffer.unread (b : Buffer) : List Nat :=
  (b.buf.drop b.rd).take (b.wr - b.rd)

/-- The buffer invariant: read cursor ≤ write cursor ≤ storage length
≤ capacity, and the capacity is positive (in Go, `len(buf) ≤ cap(buf)`
always holds, and the capacity starts at 64 and only doubles). -/
def Buffer.wf (b : Buffer) : Prop :=
  b.rd ≤ b.wr ∧ b.wr ≤ b.buf.length ∧ b.buf.length ≤ b.capacity ∧
  0 < b.capacity

instance (b : Buffer) : Decidable b.wf := by
  unfold Buffer.wf; infer_instance

/-! ### Logical stream state (`Stream` struct)

The Go `Stream` holds a back-pointer to its session; stream operations
that emit frames take the session state explicitly instead. -/

structure StreamState where
  id : Nat
  closed : Bool
  readBuf : Buffer
deriving DecidableEq, Repr

/-- `newStream(session, id)`: open, with a fresh buffer. -/
def newStream (id : Nat) : StreamState :=
  { id := id, closed := false, readBuf := newBuffer }

/-! ### Stream registry (`map[uint32]*Stream` guarded by `streamLock`)

Modelled as an association list with unique keys; a Go map assignment
replaces an existing binding or adds a new one, `delete` removes it. -/

def lookupStream (streams : List (Nat × StreamState)) (id : Nat) :
    Option StreamState :=
  match streams with
  | [] => none
  | (k, v) :: rest => if k = id then some v else lookupStream rest id

def insertStream (streams : List (Nat × StreamState)) (id : Nat)
    (st : StreamState) : List (Nat × StreamState) :=
  if (lookupStream streams id).isSome then
    streams.map (fun kv => if kv.1 = id then (id, st) else kv)
  else streams ++ [(id, st)]

def eraseStream (streams : List (Nat × StreamState)) (id : Nat) :
    List (Nat × StreamState) :=
  streams.filter (fun kv => kv.1 ≠ id)

/-! ### Session (`Session` struct)

`writeQueue` records the byte sequences enqueued on `writeCh` in order
(the writer loop drains it to the connection verbatim); `acceptCh` is
the bounded accept queue holding pending inbound stream IDs;
`connCloseErr` is the (abstract) result `conn.Close()` would return. -/

structure Session where
  streams : List (Nat × StreamState)
  nextStreamID : Nat
  acceptCh : List Nat
  acceptBacklog : Nat
  isRemoteClient : Bool
  closed : Bool
  readerShutdown : Bool
  writerShutdown : Bool
  connClosed : Bool
  connCloseErr : Option Nat
  writeQueue : List (List Nat)
deriving DecidableEq, Repr

/-- `Server(conn, config)` / `Client(conn, config)`: identical except
the seed of `nextStreamID` (server 1, client 2) and `isRemoteClient`. -/
def newSession (isServer : Bool) (backlog : Nat) : Session :=
  { streams := [], nextStreamID := if isServer then 1 else 2,
    acceptCh := [], acceptBacklog := backlog,
    isRemoteClient := isServer, closed := false,
    readerShutdown := false, writerShutdown := false,
    connClosed := false, connCloseErr := none, writeQueue := [] }

/-- `Session.write` (frame enqueue): fails with `SessionClosed` if the
session is closed; otherwise `select` sends on `writeCh` or times out
after `ConnectionWriteTimeout`. `accepted` is the oracle for whether the
bounded channel took the frame within the timeout. -/
def Session.write (s : Session) (data : List Nat) (accepted : Bool) :
    Session × Option YErr :=
  if s.closed then (s, some .sessionClosed)
  else if accepted then ({ s with writeQueue := s.writeQueue ++ [data] }, none)
  else (s, some .writeTimeout)

/-- `Session.OpenStream`: closed-session check, then under `streamLock`
allocate `streamID := s.nextStreamID`, advance the counter by 2 (uint32
arithmetic wraps mod 2^32), create and register the stream; then build
the SYN header and enqueue it, returning the enqueue error on failure
(the registration and the counter advance are not rolled back). -/
def Session.openStream (s : Session) (accepted : Bool) :
    Session × Except YErr Nat :=
  if s.closed then (s, .error .sessionClosed)
  else
    let streamID := s.nextStreamID
    let s1 : Session :=
      { s with nextStreamID := (s.nextStreamID + 2) % 2 ^ 32,
               streams := insertStream s.streams streamID (newStream streamID) }
    let header := mkHeader typeSYN 0 streamID 0
    match s1.write header accepted with
    | (s2, none) => (s2, .ok streamID)
    | (s2, some e) => (s2, .error e)

/-- `Session.AcceptStream`: fails with `SessionClosed` when closed;
otherwise `select` either receives a pending stream from `acceptCh` or
hits `StreamOpenTimeout`. In this sequential model a stream that would
arrive during the wait is one already sitting in `acceptCh`, so an empty
queue is the timeout case. -/
def Session.acceptStream (s : Session) : Session × Except YErr Nat :=
  if s.closed then (s, .error .sessionClosed)
  else
    match s.acceptCh with
    | id :: rest => ({ s with acceptCh := rest }, .ok id)
    | [] => (s, .error .acceptTimeout)

/-- `Session.Close`: under `closeLock`, a second call returns nil with no
effects; the first call sets the closed flag, walks the registry marking
every stream closed and closing its buffer, closes both shutdown
channels, closes the connection and returns its result. -/
def Session.close (s : Session) : Session × Option Nat :=
  if s.closed then (s, none)
  else
    ({ s with closed := true,
              streams := s.streams.map (fun kv =>
                (kv.1, { kv.2 with closed := true,
                                   readBuf := kv.2.readBuf.close })),
              readerShutdown := true, writerShutdown := true,
              connClosed := true },
     s.connCloseErr)

/-- `Session.handleSYN`: duplicate stream IDs are ignored; otherwise the
stream is created and registered, an ACK header is enqueued (its error
is discarded in the source), and the stream is offered to `acceptCh`
with a non-blocking send: if the queue is full the registration is
deleted again and the stream dropped. -/
def Session.handleSYN (s : Session) (streamID : Nat) (ackAccepted : Bool) :
    Session :=
  if (lookupStream s.streams streamID).isSome then s
  else
    let stream := newStream streamID
    let s1 : Session := { s with streams := insertStream s.streams streamID stream }
    let s2 := (s1.write (mkHeader typeACK 0 streamID 0) ackAccepted).1
    if s2.acceptCh.length < s2.acceptBacklog then
      { s2 with acceptCh := s2.acceptCh ++ [streamID] }
    else
      { s2 with streams := eraseStream s2.streams streamID }

/-- `Session.handleData`: `wire` is the connection's byte stream after
the frame header. An unregistered stream ID has its `length` payload
bytes read and discarded (the `io.ReadFull` result is ignored there); a
registered stream has the payload read (a short read closes the whole
session) and written to the stream's buffer (that `Write`'s result is
discarded in the source). Returns the new session and the remaining
wire bytes. -/
def Session.handleData (s : Session) (streamID flags length : Nat)
    (wire : List Nat) : Session × List Nat :=
  match lookupStream s.streams streamID with
  | none =>
      if 0 < length then (s, wire.drop length) else (s, wire)
  | some st =>
      if 0 < length then
        if wire.length < length then ((s.close).1, wire.drop length)
        else
          let data := wire.take length
          let st' : StreamState := { st with readBuf := (st.readBuf.write data).1 }
          ({ s with streams := insertStream s.streams streamID st' },
           wire.drop length)
      else (s, wire)

/-- `Session.handleFIN`: unknown IDs ignored; otherwise mark the stream
closed and close its buffer (the stream stays registered). -/
def Session.handleFIN (s : Session) (streamID : Nat) : Session :=
  match lookupStream s.streams streamID with
  | none => s
  | some st =>
      let st' : StreamState := { st with closed := true, readBuf := st.readBuf.close }
      { s with streams := insertStream s.streams streamID st' }

/-- `Session.handlePING`: build a zero-filled header, set the type to
PONG and echo the flags, and enqueue it (the result is discarded). -/
def Session.handlePING (s : Session) (flags : Nat) (accepted : Bool) : Session :=
  (s.write (mkHeader typePONG flags 0 0) accepted).1

/-- One tick of the keepalive loop: build a PING header with stream ID 0
and length 0 and enqueue it; on failure close the session and exit. -/
def Session.keepaliveTick (s : Session) (accepted : Bool) : Session :=
  let header := mkHeader typePING 0 0 0
  match s.write header accepted with
  | (s1, none) => s1
  | (s1, some _) => (s1.close).1

/-- `Stream.Read`: a closed stream returns EOF immediately; otherwise it
delegates to the buffer's `Read`. -/
def StreamState.read (st : StreamState) (plen : Nat) :
    StreamState × ReadResult :=
  if st.closed then (st, .eof)
  else
    let (b, r) := st.readBuf.read plen
    ({ st with readBuf := b }, r)

/-- `Stream.Write`: a locally closed stream fails; zero-length input is
a no-op success; otherwise the DATA header is built, `data :=
append(header, p...)` is submitted to `Session.write` as one unit, the
enqueue error is propagated as `(0, err)`, and success returns
`(len(p), nil)`. -/
def StreamState.write (st : StreamState) (sess : Session) (p : List Nat)
    (accepted : Bool) : Session × Nat × Option YErr :=
  if st.closed then (sess, 0, some .streamClosed)
  else if p.length = 0 then (sess, 0, none)
  else
    let frame := mkHeader typeData 0 st.id p.length ++ p
    match sess.write frame accepted with
    | (sess', none) => (sess', p.length, none)
    | (sess', some e) => (sess', 0, some e)

/-- `Stream.Close`: a second call returns nil and emits nothing; the
first call marks the stream closed, builds a FIN header and enqueues
it, returning the enqueue's result. -/
def StreamState.close (st : StreamState) (sess : Session) (accepted : Bool) :
    StreamState × Session × Option YErr :=
  if st.closed then (st, sess, none)
  else
    let st' : StreamState := { st with closed := true }
    let (sess', e) := sess.write (mkHeader typeFIN 0 st.id 0) accepted
    (st', sess', e)

/-! ### Iterated stream opening (for the ID-allocation claims) -/

/-- The session after `k` successful `OpenStream` calls. -/
def iterOpen (s : Session) : Nat → Session
  | 0 => s
  | k + 1 => ((iterOpen s k).openStream true).1

/-- The result of the `k`-th (0-based) `OpenStream` call. -/
def allocAt (s : Session) (k : Nat) : Except YErr Nat :=
  ((iterOpen s k).openStream true).2

/-! ### Spec-side frame predicate

Direct translation of the claim's wording about the wire format: a
10-byte header, message type byte at offset 0, flags byte at offset 1,
big-endian stream ID at 2-5, big-endian length at 6-9, and the payload
immediately following the header in the same byte sequence. -/

def frameSpec (fr : List Nat) (t f sid len : Nat) (payload : List Nat) : Prop :=
  fr.length = headerSize + payload.length ∧
  frameMsgType fr = t ∧
  frameFlags fr = f ∧
  frameStreamID fr = sid ∧
  frameLength fr = len ∧
  fr.drop headerSize = payload

/-! ### Frame codec lemmas -/

theorem beBytesToNat_putUint32BE (v : Nat) :
    beBytesToNat (putUint32BE v) = v % 2 ^ 32 := by
  simp only [putUint32BE, beBytesToNat, List.foldl]
  omega

theorem putUint32BE_length (v : Nat) : (putUint32BE v).length = 4 := rfl

theorem mkHeader_length (t f sid len : Nat) :
    (mkHeader t f sid len).length = headerSize := rfl

/-- The header written byte by byte, as it sits in memory. -/
theorem mkHeader_eq (t f sid len : Nat) :
    mkHeader t f sid len =
      [t, f, sid / 2 ^ 24 % 256, sid / 2 ^ 16 % 256, sid / 2 ^ 8 % 256,
       sid % 256, len / 2 ^ 24 % 256, len / 2 ^ 16 % 256, len / 2 ^ 8 % 256,
       len % 256] := rfl

theorem mkHeader_frameSpec (t f sid len : Nat) (payload : List Nat)
    (hsid : sid < 2 ^ 32) (hlen : len < 2 ^ 32) :
    frameSpec (mkHeader t f sid len ++ payload) t f sid len payload := by
  rw [mkHeader_eq]
  refine ⟨?_, rfl, rfl, ?_, ?_, rfl⟩
  · simp [headerSize]; omega
  · simp only [frameStreamID, List.cons_append, List.drop_succ_cons,
      List.drop_zero, List.take_succ_cons, List.take_zero, beBytesToNat,
      List.foldl]
    omega
  · simp only [frameLength, List.cons_append, List.drop_succ_cons,
      List.drop_zero, List.take_succ_cons, List.take_zero, beBytesToNat,
      List.foldl]
    omega

/-! ### C1: wire format of every emitted frame -/

/-- The statement of C1, instantiated at one session, one stream, one
payload, one echoed flags byte and one inbound SYN stream ID: each of
the six frame-emitting sites (SYN from `OpenStream`, DATA from
`Stream.Write`, FIN from `Stream.Close`, ACK from `handleSYN`, PING from
the keepalive tick, PONG from `handlePING`) enqueues exactly one byte
sequence satisfying `frameSpec` with the right type, flags, stream ID,
length and payload. -/
def FrameFormatClaim (s : Session) (st : StreamState) (p : List Nat)
    (flags sid : Nat) : Prop :=
  ((s.openStream true).1.writeQueue
      = s.writeQueue ++ [mkHeader typeSYN 0 s.nextStreamID 0]
    ∧ frameSpec (mkHeader typeSYN 0 s.nextStreamID 0)
        typeSYN 0 s.nextStreamID 0 []) ∧
  ((st.write s p true).1.writeQueue
      = s.writeQueue ++ [mkHeader typeData 0 st.id p.length ++ p]
    ∧ frameSpec (mkHeader typeData 0 st.id p.length ++ p)
        typeData 0 st.id p.length p) ∧
  ((st.close s true).2.1.writeQueue
      = s.writeQueue ++ [mkHeader typeFIN 0 st.id 0]
    ∧ frameSpec (mkHeader typeFIN 0 st.id 0) typeFIN 0 st.id 0 []) ∧
  ((s.handleSYN sid true).writeQueue
      = s.writeQueue ++ [mkHeader typeACK 0 sid 0]
    ∧ frameSpec (mkHeader typeACK 0 sid 0) typeACK 0 sid 0 []) ∧
  ((s.keepaliveTick true).writeQueue
      = s.writeQueue ++ [mkHeader typePING 0 0 0]
    ∧ frameSpec (mkHeader typePING 0 0 0) typePING 0 0 0 []) ∧
  ((s.handlePING flags true).writeQueue
      = s.writeQueue ++ [mkHeader typePONG flags 0 0]
    ∧ frameSpec (mkHeader typePONG flags 0 0) typePONG flags 0 0 [])

/-- C1: every frame the session emits (SYN from OpenStream, DATA from
Stream.Write, FIN from Stream.Close, ACK from handleSYN, PING from the
keepalive loop, PONG from handlePING) is exactly a 10-byte header with
the message type byte at offset 0 (DATA=0, SYN=1, FIN=2, ACK=3, PING=4,
PONG=5), the flags byte at offset 1, the stream ID as a big-endian
uint32 at offsets 2-5 (0 for PING/PONG), the length as a big-endian
uint32 at offsets 6-9, length 0 for every non-DATA frame, and for DATA
the length equals the payload byte count with the payload immediately
following the header in the same enqueued byte sequence. -/
theorem c1_frame_wire_format (s : Session) (st : StreamState) (p : List Nat)
    (flags sid : Nat) (hs : s.closed = false) (hst : st.closed = false)
    (hp : p ≠ []) (hnext : s.nextStreamID < 2 ^ 32) (hid : st.id < 2 ^ 32)
    (hplen : p.length < 2 ^ 32) (hsid : sid < 2 ^ 32)
    (hlook : lookupStream s.streams sid = none) :
    FrameFormatClaim s st p flags sid := by
  have h32 : (0 : Nat) < 2 ^ 32 := by norm_num
  have hp0 : ¬ p.length = 0 := by simpa using hp
  refine ⟨⟨?_, mkHeader_frameSpec _ _ _ _ _ hnext h32⟩,
          ⟨?_, mkHeader_frameSpec _ _ _ _ _ hid hplen⟩,
          ⟨?_, mkHeader_frameSpec _ _ _ _ _ hid h32⟩,
          ⟨?_, mkHeader_frameSpec _ _ _ _ _ hsid h32⟩,
          ⟨?_, mkHeader_frameSpec _ _ _ _ _ h32 h32⟩,
          ⟨?_, mkHeader_frameSpec _ _ _ _ _ h32 h32⟩⟩
  · simp [Session.openStream, Session.write, hs]
  · simp [StreamState.write, Session.write, hs, hst, hp0]
  · simp [StreamState.close, Session.write, hs, hst]
  · have hlook' : (lookupStream s.streams sid).isSome = false := by
      simp [hlook]
    unfold Session.handleSYN
    rw [hlook']
    simp only [Bool.false_eq_true, if_false]
    split <;> simp [Session.write, hs, eraseStream]
  · simp [Session.keepaliveTick, Session.write, hs]
  · simp [Session.handlePING, Session.write, hs]

/-- Witness for C1 at a concrete session, stream, payload and flags. -/
theorem c1_frame_wire_format_witness :
    FrameFormatClaim (newSession true 256) (newStream 5) [42] 7 9 :=
  c1_frame_wire_format (newSession true 256) (newStream 5) [42] 7 9
    rfl rfl (by decide) (by decide) (by decide) (by decide) (by decide) rfl

/-! ### C2: stream-ID allocation -/

theorem openStream_spec (s : Session) (hs : s.closed = false) :
    (s.openStream true).1.nextStreamID = (s.nextStreamID + 2) % 2 ^ 32 ∧
    (s.openStream true).1.closed = false ∧
    (s.openStream true).2 = .ok s.nextStreamID := by
  simp [Session.openStream, Session.write, hs]

theorem iterOpen_nextStreamID (s : Session) (hs : s.closed = false)
    (hlt : s.nextStreamID < 2 ^ 32) (k : Nat) :
    (iterOpen s k).closed = false ∧
    (iterOpen s k).nextStreamID = (s.nextStreamID + 2 * k) % 2 ^ 32 := by
  induction k with
  | zero => simpa [iterOpen, hs] using (Nat.mod_eq_of_lt hlt).symm
  | succ n ih =>
      obtain ⟨hc, hn⟩ := ih
      have h := openStream_spec (iterOpen s n) hc
      refine ⟨?_, ?_⟩
      · show ((iterOpen s n).openStream true).1.closed = false
        exact h.2.1
      · show ((iterOpen s n).openStream true).1.nextStreamID = _
        rw [h.1, hn]
        omega

theorem allocAt_eq (s : Session) (hs : s.closed = false)
    (hlt : s.nextStreamID < 2 ^ 32) (k : Nat) :
    allocAt s k = .ok ((s.nextStreamID + 2 * k) % 2 ^ 32) := by
  have h := iterOpen_nextStreamID s hs hlt k
  unfold allocAt
  rw [(openStream_spec _ h.1).2.2, h.2]

/-- The statement of C2 as amended, instantiated at one backlog size and
two call indices `j`, `k`: the server session seeds its counter at 1 and
the client at 2; each `OpenStream` returns the current counter value and
advances the counter by exactly 2 (uint32 arithmetic); server-allocated
IDs are odd and client-allocated IDs even, so the two ends never
allocate the same ID; and two distinct calls on the same session get
distinct IDs — provided the call indices stay below 2^31 (the counter is
a uint32, so after 2^31 opens it wraps and IDs repeat). -/
def IdAllocationClaim (b j k : Nat) : Prop :=
  (newSession true b).nextStreamID = 1 ∧
  (newSession false b).nextStreamID = 2 ∧
  allocAt (newSession true b) j = .ok ((1 + 2 * j) % 2 ^ 32) ∧
  allocAt (newSession false b) j = .ok ((2 + 2 * j) % 2 ^ 32) ∧
  ((iterOpen (newSession true b) j).openStream true).2
      = .ok (iterOpen (newSession true b) j).nextStreamID ∧
  ((iterOpen (newSession true b) j).openStream true).1.nextStreamID
      = ((iterOpen (newSession true b) j).nextStreamID + 2) % 2 ^ 32 ∧
  (1 + 2 * j) % 2 ^ 32 % 2 = 1 ∧
  (2 + 2 * j) % 2 ^ 32 % 2 = 0 ∧
  allocAt (newSession true b) j ≠ allocAt (newSession false b) k ∧
  (j ≠ k → allocAt (newSession true b) j ≠ allocAt (newSession true b) k) ∧
  (j ≠ k → allocAt (newSession false b) j ≠ allocAt (newSession false b) k)

/-- C2 (amended): Server() seeds the next-stream-ID counter at 1 and
Client() at 2; every OpenStream call allocates the current counter value
and advances it by exactly 2 (as a uint32); server-allocated IDs are
odd, client-allocated IDs are even, and the two ends never allocate the
same ID; within one session, IDs are never repeated as long as fewer
than 2^31 OpenStream calls are made (beyond that the uint32 counter
wraps around and reuses IDs). -/
theorem c2_id_allocation (b j k : Nat) (hj : j < 2 ^ 31) (hk : k < 2 ^ 31) :
    IdAllocationClaim b j k := by
  have hn1 : (newSession true b).nextStreamID = 1 := rfl
  have hn2 : (newSession false b).nextStreamID = 2 := rfl
  have hserver := allocAt_eq (newSession true b) rfl (by rw [hn1]; norm_num)
  have hclient := allocAt_eq (newSession false b) rfl (by rw [hn2]; norm_num)
  have hio := iterOpen_nextStreamID (newSession true b) rfl
    (by rw [hn1]; norm_num) j
  have hos := openStream_spec _ hio.1
  rw [hn1] at hserver
  rw [hn2] at hclient
  refine ⟨rfl, rfl, hserver j, hclient j, hos.2.2, hos.1, by omega, by omega,
      ?_, ?_, ?_⟩
  · rw [hserver j, hclient k]
    simp only [ne_eq, Except.ok.injEq]
    omega
  · intro hjk
    rw [hserver j, hserver k]
    simp only [ne_eq, Except.ok.injEq]
    omega
  · intro hjk
    rw [hclient j, hclient k]
    simp only [ne_eq, Except.ok.injEq]
    omega

/-- Witness for C2 at backlog 256 and call indices 0 and 1. -/
theorem c2_id_allocation_witness : IdAllocationClaim 256 0 1 :=
  c2_id_allocation 256 0 1 (by norm_num) (by norm_num)

/-- Counterexample to C2 as stated: in a server session, the ID
allocated by OpenStream call number 2^31 equals the ID allocated by call
number 0 (both are 1) — the uint32 counter wraps, so an ID assigned once
is assigned again. -/
theorem c2_id_reuse_counterexample :
    allocAt (newSession true 256) (2 ^ 31) = allocAt (newSession true 256) 0 ∧
    allocAt (newSession true 256) 0 = .ok 1 := by
  rw [allocAt_eq (newSession true 256) rfl (by decide),
      allocAt_eq (newSession true 256) rfl (by decide)]
  constructor
  · simp only [Except.ok.injEq]
    decide
  · simp only [Except.ok.injEq]
    decide

/-! ### Growable-byte-buffer lemmas -/

theorem growLoop_ge (fuel : Nat) : ∀ cur needed : Nat,
    cur ≤ growLoop fuel cur needed ∧
    (0 < cur → needed ≤ cur + fuel → needed ≤ growLoop fuel cur needed) := by
  induction fuel with
  | zero =>
      intro cur needed
      exact ⟨le_rfl, fun _ h => by simpa [growLoop] using h⟩
  | succ n ih =>
      intro cur needed
      unfold growLoop
      by_cases h : cur < needed
      · rw [if_pos h]
        have hrec := ih (cur * 2) needed
        refine ⟨le_trans (by omega) hrec.1, fun hpos _ => ?_⟩
        exact hrec.2 (by omega) (by omega)
      · rw [if_neg h]
        exact ⟨le_rfl, fun _ _ => by omega⟩

theorem growSize_ge (cur needed : Nat) :
    cur ≤ growSize cur needed ∧ (0 < cur → needed ≤ growSize cur needed) := by
  have h := growLoop_ge needed cur needed
  exact ⟨h.1, fun hpos => h.2 hpos (by omega)⟩

/-- Properties of the growth block of `buffer.Write`: cursors, the
closed flag and the unread bytes are untouched, the invariant is kept,
and afterwards the storage can hold `wr + plen`. -/
theorem Buffer.grow_spec (b : Buffer) (plen : Nat) (hwf : b.wf) :
    (b.grow plen).rd = b.rd ∧ (b.grow plen).wr = b.wr ∧
    (b.grow plen).closed = b.closed ∧
    (b.grow plen).unread = b.unread ∧
    (b.grow plen).wf ∧
    b.wr + plen ≤ (b.grow plen).buf.length := by
  obtain ⟨h1, h2, h3, h4⟩ := hwf
  unfold Buffer.grow
  split
  · next hneed =>
      have hg := growSize_ge (b.capacity * 2) (b.wr + plen)
      have hge : b.wr + plen ≤ growSize (b.capacity * 2) (b.wr + plen) :=
        hg.2 (by omega)
      have hlen : (b.buf.take b.wr ++
          List.replicate (growSize (b.capacity * 2) (b.wr + plen) - b.wr) 0).length
          = growSize (b.capacity * 2) (b.wr + plen) := by
        simp only [List.length_append, List.length_take, List.length_replicate]
        omega
      refine ⟨rfl, rfl, rfl, ?_, ⟨h1, ?_, ?_, ?_⟩, ?_⟩
      · show ((b.buf.take b.wr ++ _).drop b.rd).take (b.wr - b.rd) = b.unread
        rw [List.drop_append_of_le_length (by simp; omega)]
        rw [List.take_append_of_le_length (by simp [List.length_drop]; omega)]
        unfold Buffer.unread
        rw [List.drop_take, List.take_take]
        congr 1
        omega
      · show b.wr ≤ _
        rw [hlen]; omega
      · show _ ≤ growSize (b.capacity * 2) (b.wr + plen)
        rw [hlen]
      · show 0 < growSize (b.capacity * 2) (b.wr + plen)
        omega
      · show b.wr + plen ≤ _
        rw [hlen]; exact hge
  · next hneed =>
      exact ⟨rfl, rfl, rfl, rfl, ⟨h1, h2, h3, h4⟩, by omega⟩

/-- Full functional specification of `buffer.Write` on an open buffer:
it fails never, reports the whole input written, advances only the
write cursor, keeps the invariant, and appends exactly the input to the
unread bytes. -/
theorem Buffer.write_spec (b : Buffer) (p : List Nat) (hwf : b.wf)
    (hopen : b.closed = false) :
    (b.write p).2.2 = none ∧
    (b.write p).2.1 = p.length ∧
    (b.write p).1.wf ∧
    (b.write p).1.rd = b.rd ∧
    (b.write p).1.wr = b.wr + p.length ∧
    (b.write p).1.closed = false ∧
    b.wr + p.length ≤ (b.write p).1.buf.length ∧
    (b.write p).1.unread = b.unread ++ p := by
  obtain ⟨grd, gwr, gcl, gun, gwf, glen⟩ := b.grow_spec p.length hwf
  by_cases hp : p.length = 0
  · have hpnil : p = [] := List.length_eq_zero.mp hp
    subst hpnil
    obtain ⟨h1, h2, h3, h4⟩ := hwf
    have hw : b.write [] = (b, 0, none) := rfl
    rw [hw]
    exact ⟨rfl, rfl, ⟨h1, h2, h3, h4⟩, rfl, rfl, hopen, by dsimp only; omega,
      by simp [Buffer.unread]⟩
  · obtain ⟨g1, g2, g3, g4⟩ := gwf
    unfold Buffer.write
    rw [if_neg hp, if_neg (by rw [hopen]; exact Bool.false_ne_true)]
    have hn : min p.length ((b.grow p.length).buf.length - (b.grow p.length).wr)
        = p.length := by omega
    simp only [hn]
    refine ⟨by trivial, by trivial, ?_, ?_, ?_, ?_, ?_, ?_⟩
    · refine ⟨?_, ?_, ?_, ?_⟩
      all_goals try dsimp only
      all_goals try simp only [List.length_append, List.length_take,
        List.length_drop]
      all_goals omega
    · exact grd
    · show (b.grow p.length).wr + p.length = b.wr + p.length
      omega
    · exact gcl.trans hopen
    · dsimp only
      simp only [List.length_append, List.length_take, List.length_drop]
      omega
    · unfold Buffer.unread
      dsimp only
      rw [List.take_length, List.append_assoc]
      have hlen1 : ((b.grow p.length).buf.take (b.grow p.length).wr).length
          = (b.grow p.length).wr := by
        simp only [List.length_take]
        omega
      rw [List.drop_append_of_le_length (by rw [hlen1]; omega),
          List.take_append_eq_append_take]
      have hfl : (((b.grow p.length).buf.take (b.grow p.length).wr).drop
          (b.grow p.length).rd).length = (b.grow p.length).wr -
          (b.grow p.length).rd := by
        simp only [List.length_drop, List.length_take]
        omega
      rw [List.take_of_length_le (by rw [hfl]; omega), hfl]
      have harith : (b.grow p.length).wr + p.length - (b.grow p.length).rd -
          ((b.grow p.length).wr - (b.grow p.length).rd) = p.length := by
        omega
      rw [harith, List.take_append_of_le_length le_rfl, List.take_length]
      congr 1
      rw [List.drop_take]
      exact gun

/-- Functional specification of `buffer.Read` into a destination of
size `plen`: an empty buffer reports EOF when closed and suspends
otherwise; a nonempty buffer returns the first `min plen (wr-rd)`
unread bytes, keeps the invariant, and resets both cursors to 0
exactly when it drains the buffer — returning every unread byte. -/
theorem Buffer.read_spec (b : Buffer) (plen : Nat) (hwf : b.wf) :
    (b.wr ≤ b.rd → b.closed = true → b.read plen = (b, .eof)) ∧
    (b.wr ≤ b.rd → b.closed = false → b.read plen = (b, .wouldBlock)) ∧
    (b.rd < b.wr →
      (b.read plen).2 = .bytes (b.unread.take plen) ∧
      (b.read plen).1.wf ∧
      (b.read plen).1.unread = b.unread.drop plen ∧
      (b.read plen).1.closed = b.closed ∧
      (b.wr - b.rd ≤ plen → (b.read plen).1.rd = 0 ∧ (b.read plen).1.wr = 0 ∧
        (b.read plen).2 = .bytes b.unread)) := by
  obtain ⟨h1, h2, h3, h4⟩ := hwf
  refine ⟨?_, ?_, ?_⟩
  · intro hle hcl
    unfold Buffer.read
    rw [if_pos hle, if_pos hcl]
  · intro hle hcl
    unfold Buffer.read
    rw [if_pos hle, if_neg (by rw [hcl]; exact Bool.false_ne_true)]
  · intro hlt
    unfold Buffer.read
    rw [if_neg (by omega)]
    have hdata : (b.buf.drop b.rd).take (min plen (b.wr - b.rd))
        = b.unread.take plen := by
      unfold Buffer.unread
      rw [List.take_take, Nat.min_comm]
    by_cases hdrain : b.rd + min plen (b.wr - b.rd) = b.wr
    · rw [if_pos hdrain]
      refine ⟨by rw [hdata], ⟨le_rfl, Nat.zero_le _, h3, h4⟩, ?_, rfl, ?_⟩
      · show (b.buf.drop 0).take (0 - 0) = b.unread.drop plen
        have : b.wr - b.rd ≤ plen := by omega
        simp only [List.take_zero, Nat.zero_sub]
        rw [List.drop_of_length_le]
        unfold Buffer.unread
        simp only [List.length_take, List.length_drop]
        omega
      · intro hple
        refine ⟨rfl, rfl, ?_⟩
        rw [hdata, List.take_of_length_le]
        unfold Buffer.unread
        simp only [List.length_take, List.length_drop]
        omega
    · rw [if_neg hdrain]
      have hmin : min plen (b.wr - b.rd) = plen := by omega
      refine ⟨by rw [hdata], ⟨by dsimp only; omega, h2, h3, h4⟩, ?_, rfl, ?_⟩
      · show (b.buf.drop (b.rd + min plen (b.wr - b.rd))).take
            (b.wr - (b.rd + min plen (b.wr - b.rd))) = b.unread.drop plen
        unfold Buffer.unread
        rw [hmin, List.drop_take, List.drop_drop]
        have e1 : b.wr - b.rd - plen = b.wr - (b.rd + plen) := by omega
        rw [e1]
      · intro hple
        omega

/-- `buffer.Close` only sets the closed flag; cursors and storage are
untouched, and the invariant is preserved. -/
theorem Buffer.close_spec (b : Buffer) :
    (b.close).closed = true ∧ (b.close).rd = b.rd ∧ (b.close).wr = b.wr ∧
    (b.close).buf = b.buf ∧ (b.close).capacity = b.capacity ∧
    (b.wf → (b.close).wf) := by
  unfold Buffer.close
  split
  · next hcl => exact ⟨hcl, rfl, rfl, rfl, rfl, fun h => h⟩
  · exact ⟨rfl, rfl, rfl, rfl, rfl, fun h => h⟩

/-! ### C9: growable-buffer contract -/

/-- The statement of C9, instantiated at one buffer, one input and one
destination size: `Read`, `Write` and `Close` all preserve the cursor
invariant; `Write` on an open buffer succeeds, grows the storage until
it can hold `wr + len(p)`, copies in all input bytes (appending them to
the unread bytes) and returns the full input length; a `Read` that
drains the buffer resets both cursors to 0 while returning every
unconsumed byte. -/
def BufferContractClaim (b : Buffer) (p : List Nat) (plen : Nat) : Prop :=
  (b.write p).1.wf ∧
  (b.read plen).1.wf ∧
  (b.close).wf ∧
  (b.write p).2.2 = none ∧
  (b.write p).2.1 = p.length ∧
  b.wr + p.length ≤ (b.write p).1.buf.length ∧
  (b.write p).1.wr = b.wr + p.length ∧
  (b.write p).1.unread = b.unread ++ p ∧
  (b.rd < b.wr → b.wr - b.rd ≤ plen →
    (b.read plen).1.rd = 0 ∧ (b.read plen).1.wr = 0 ∧
    (b.read plen).2 = .bytes b.unread)

/-- C9: the growable byte buffer maintains `rd ≤ wr ≤ len(buf)` across
every Read, Write and Close; a write on an open buffer never blocks,
doubles the storage until it can hold `wr + len(p)`, copies in all
input bytes and returns the full input length; a read that drains the
buffer resets both cursors to 0 without losing any unconsumed byte. -/
theorem c9_buffer_contract (b : Buffer) (p : List Nat) (plen : Nat)
    (hwf : b.wf) (hopen : b.closed = false) : BufferContractClaim b p plen := by
  obtain ⟨we, wn, wwf, wrd, wwr, wcl, wlen, wun⟩ := b.write_spec p hwf hopen
  have hr := b.read_spec plen hwf
  have hc := Buffer.close_spec b
  refine ⟨wwf, ?_, hc.2.2.2.2.2 hwf, we, wn, wlen, wwr, wun, ?_⟩
  · by_cases hlt : b.rd < b.wr
    · exact ((hr.2.2 hlt).2.1)
    · rw [hr.2.1 (by omega) hopen]
      exact hwf
  · intro hlt hple
    exact (hr.2.2 hlt).2.2.2.2 hple

/-- Witness for C9 on a buffer already holding two unread bytes. -/
theorem c9_buffer_contract_witness :
    BufferContractClaim (newBuffer.write [1, 2]).1 [3] 5 :=
  c9_buffer_contract (newBuffer.write [1, 2]).1 [3] 5 (by decide) (by decide)

/-! ### C3: end-of-stream semantics of read -/

/-- `buffer.Read` reports EOF exactly when the buffer is both drained
and closed. -/
theorem Buffer.read_eof_iff (b : Buffer) (plen : Nat) :
    (b.read plen).2 = .eof ↔ (b.wr ≤ b.rd ∧ b.closed = true) := by
  unfold Buffer.read
  by_cases hle : b.wr ≤ b.rd
  · rw [if_pos hle]
    by_cases hcl : b.closed = true
    · simp [hcl, hle]
    · simp [hcl, hle]
  · rw [if_neg hle]
    dsimp only
    split <;> simp [hle]

/-- The statement of C3 as amended, instantiated at one buffer, one
stream and one destination size: at the buffer level, EOF is reported
exactly when the buffer is closed and fully drained; but `Stream.Read`
short-circuits on the stream's closed flag, returning EOF immediately —
even when unread bytes remain — and only delegates to the buffer when
the stream is not marked closed. -/
def StreamReadEofClaim (b : Buffer) (st : StreamState) (plen : Nat) : Prop :=
  ((b.read plen).2 = .eof ↔ (b.wr ≤ b.rd ∧ b.closed = true)) ∧
  (st.closed = true → (st.read plen).2 = .eof) ∧
  (st.closed = false → (st.read plen).2 = (st.readBuf.read plen).2 ∧
    (st.read plen).1.readBuf = (st.readBuf.read plen).1)

/-- C3 (amended): the buffer's Read returns end-of-stream only when the
buffer is closed AND fully drained; however `Stream.Read` returns
end-of-stream as soon as the stream's closed flag is set, even when
unread bytes remain in the stream's buffer — those bytes are then
unreachable through `Stream.Read`. Only when the stream is not marked
closed does `Stream.Read` delegate to the buffer. -/
theorem c3_read_eof_semantics (b : Buffer) (st : StreamState) (plen : Nat) :
    StreamReadEofClaim b st plen := by
  refine ⟨Buffer.read_eof_iff b plen, ?_, ?_⟩
  · intro h
    unfold StreamState.read
    rw [if_pos h]
  · intro h
    unfold StreamState.read
    rw [if_neg (by rw [h]; exact Bool.false_ne_true)]
    rcases hrw : st.readBuf.read plen with ⟨b', r⟩
    exact ⟨rfl, rfl⟩

/-- Witness for C3's amended statement at a concrete buffer/stream. -/
theorem c3_read_eof_semantics_witness :
    StreamReadEofClaim newBuffer (newStream 1) 4 :=
  c3_read_eof_semantics newBuffer (newStream 1) 4

/-- Reader-loop scenario used for the C3 and C7 counterexamples: the
server receives SYN for stream 2, then one DATA byte `7` for it, then
FIN for it. The stream stays registered, marked closed, with one unread
byte in its (closed) buffer. -/
def finScenario : Session :=
  ((((newSession true 256).handleSYN 2 true).handleData 2 0 1 [7]).1).handleFIN 2

/-- The registered stream 2 of `finScenario`. -/
def finStream : StreamState :=
  (lookupStream finScenario.streams 2).getD (newStream 0)

/-- Counterexample to C3 as stated: after FIN, stream 2 still holds one
unread buffered byte (`rd < wr`, unread = [7]) yet `Stream.Read` returns
end-of-stream instead of that byte. -/
theorem c3_read_eof_counterexample :
    (lookupStream finScenario.streams 2).isSome = true ∧
    finStream.readBuf.rd < finStream.readBuf.wr ∧
    finStream.readBuf.unread = [7] ∧
    (finStream.read 10).2 = .eof := by decide

/-! ### Stream-registry lemmas -/

theorem lookupStream_none_forall (l : List (Nat × StreamState)) (id : Nat) :
    lookupStream l id = none → ∀ kv ∈ l, kv.1 ≠ id := by
  induction l with
  | nil =>
      intro _ kv hm
      simp at hm
  | cons hd tl ih =>
      intro h kv hm
      rcases hd with ⟨k, v⟩
      unfold lookupStream at h
      by_cases hk : k = id
      · rw [if_pos hk] at h
        cases h
      · rw [if_neg hk] at h
        rcases List.mem_cons.mp hm with h1 | h2
        · subst h1
          exact hk
        · exact ih h kv h2

theorem lookupStream_append_self (l : List (Nat × StreamState)) (id : Nat)
    (v : StreamState) (h : lookupStream l id = none) :
    lookupStream (l ++ [(id, v)]) id = some v := by
  induction l with
  | nil => simp [lookupStream]
  | cons hd tl ih =>
      rcases hd with ⟨k, w⟩
      unfold lookupStream at h
      by_cases hk : k = id
      · rw [if_pos hk] at h
        cases h
      · rw [if_neg hk] at h
        simp only [List.cons_append]
        unfold lookupStream
        rw [if_neg hk]
        exact ih h

theorem insertStream_of_none (l : List (Nat × StreamState)) (id : Nat)
    (v : StreamState) (h : lookupStream l id = none) :
    insertStream l id v = l ++ [(id, v)] := by
  unfold insertStream
  rw [h]
  rfl

theorem lookupStream_map_replace (l : List (Nat × StreamState)) (id : Nat)
    (v : StreamState) (h : (lookupStream l id).isSome = true) :
    lookupStream (l.map (fun kv => if kv.1 = id then (id, v) else kv)) id
      = some v := by
  induction l with
  | nil => simp [lookupStream] at h
  | cons hd tl ih =>
      rcases hd with ⟨k, w⟩
      by_cases hk : k = id
      · subst hk
        have hf : (fun kv : Nat × StreamState =>
            if kv.1 = k then (k, v) else kv) (k, w) = (k, v) := by
          simp
        simp only [List.map_cons, hf]
        unfold lookupStream
        simp
      · unfold lookupStream at h
        rw [if_neg hk] at h
        simp only [List.map_cons, if_neg hk]
        unfold lookupStream
        rw [if_neg hk]
        exact ih h

theorem lookupStream_insert_self (l : List (Nat × StreamState)) (id : Nat)
    (v : StreamState) :
    lookupStream (insertStream l id v) id = some v := by
  by_cases hs : (lookupStream l id).isSome = true
  · unfold insertStream
    rw [if_pos hs]
    exact lookupStream_map_replace l id v hs
  · have hnone : lookupStream l id = none := by
      rcases hopt : lookupStream l id with _ | w
      · rfl
      · rw [hopt] at hs
        simp at hs
    rw [insertStream_of_none l id v hnone]
    exact lookupStream_append_self l id v hnone

theorem eraseStream_append_of_none (l : List (Nat × StreamState)) (id : Nat)
    (v : StreamState) (h : lookupStream l id = none) :
    eraseStream (l ++ [(id, v)]) id = l := by
  unfold eraseStream
  rw [List.filter_append]
  have h1 : l.filter (fun kv => kv.1 ≠ id) = l := by
    rw [List.filter_eq_self]
    intro kv hm
    simpa using lookupStream_none_forall l id h kv hm
  have h2 : List.filter (fun kv => kv.1 ≠ id) [(id, v)] = [] := by
    simp
  rw [h1, h2, List.append_nil]

/-! ### C8: AcceptStream semantics -/

/-- The statement of C8, instantiated at one session and one pending
queue shape: a closed session fails with the session-closed condition; a
pending stream is dequeued and returned; an empty queue (no stream
within `StreamOpenTimeout`) fails with the accept-timeout condition,
which differs from the session-closed condition, with the session state
returned untouched. -/
def AcceptStreamClaim (s : Session) (id : Nat) (rest : List Nat) : Prop :=
  (s.closed = true → s.acceptStream = (s, .error .sessionClosed)) ∧
  (s.closed = false → s.acceptCh = id :: rest →
    s.acceptStream = ({ s with acceptCh := rest }, .ok id)) ∧
  (s.closed = false → s.acceptCh = [] →
    s.acceptStream = (s, .error .acceptTimeout)) ∧
  YErr.acceptTimeout ≠ YErr.sessionClosed

/-- C8: AcceptStream fails with the session-closed condition on a
closed session; on an open session it either returns a pending inbound
stream from the accept queue or, with no pending stream within
`StreamOpenTimeout`, fails with a distinct accept-timeout condition that
is not the session-closed condition and leaves the session (and all its
streams) untouched. -/
theorem c8_accept_stream (s : Session) (id : Nat) (rest : List Nat) :
    AcceptStreamClaim s id rest := by
  refine ⟨?_, ?_, ?_, by decide⟩
  · intro h
    unfold Session.acceptStream
    rw [if_pos h]
  · intro h hch
    unfold Session.acceptStream
    rw [if_neg (by rw [h]; exact Bool.false_ne_true), hch]
  · intro h hch
    unfold Session.acceptStream
    rw [if_neg (by rw [h]; exact Bool.false_ne_true), hch]

/-- Witness for C8 at a session with one pending inbound stream. -/
theorem c8_accept_stream_witness :
    AcceptStreamClaim ((newSession true 256).handleSYN 2 true) 2 [] :=
  c8_accept_stream ((newSession true 256).handleSYN 2 true) 2 []

/-! ### C10: OpenStream does not roll back on enqueue failure -/

/-- The statement of C10, instantiated at one open session: when the
SYN enqueue fails (oracle `false`, the write-timeout outcome),
OpenStream returns an error and no stream, yet the new stream is still
registered under the allocated ID and the next-stream-ID counter has
still advanced by 2. -/
def OpenStreamNoRollbackClaim (s : Session) : Prop :=
  (s.openStream false).2 = .error .writeTimeout ∧
  lookupStream (s.openStream false).1.streams s.nextStreamID
    = some (newStream s.nextStreamID) ∧
  (s.openStream false).1.nextStreamID = (s.nextStreamID + 2) % 2 ^ 32

/-- C10: OpenStream is not atomic on enqueue failure — if the SYN frame
cannot be enqueued after the ID was allocated, OpenStream returns an
error, yet the newly created stream remains registered in the session's
stream registry and the next-stream-ID counter remains advanced by 2;
the error path rolls back neither state change. -/
theorem c10_open_stream_no_rollback (s : Session) (hs : s.closed = false) :
    OpenStreamNoRollbackClaim s := by
  unfold OpenStreamNoRollbackClaim
  refine ⟨?_, ?_, ?_⟩ <;>
    simp [Session.openStream, Session.write, hs, lookupStream_insert_self]

/-- Witness for C10 at a fresh server session. -/
theorem c10_open_stream_no_rollback_witness :
    OpenStreamNoRollbackClaim (newSession true 256) :=
  c10_open_stream_no_rollback (newSession true 256) rfl

/-! ### C4: Stream.Write semantics -/

/-- The statement of C4, instantiated at one stream, one session, one
payload and one enqueue-oracle value: a locally closed stream fails with
the stream-closed error and enqueues nothing; zero-length input succeeds
with `(0, nil)` and enqueues nothing; otherwise exactly one DATA frame —
header and full payload as one unit — is enqueued and the full length
returned; enqueue failures (session closed, write timeout) are
propagated with nothing enqueued. -/
def StreamWriteClaim (st : StreamState) (sess : Session) (p : List Nat)
    (a : Bool) : Prop :=
  (st.closed = true → st.write sess p a = (sess, 0, some .streamClosed)) ∧
  (st.closed = false → p = [] → st.write sess p a = (sess, 0, none)) ∧
  (st.closed = false → p ≠ [] → sess.closed = false →
    st.write sess p true =
      ({ sess with writeQueue :=
          sess.writeQueue ++ [mkHeader typeData 0 st.id p.length ++ p] },
       p.length, none)) ∧
  (st.closed = false → p ≠ [] → sess.closed = true →
    st.write sess p a = (sess, 0, some .sessionClosed)) ∧
  (st.closed = false → p ≠ [] → sess.closed = false →
    st.write sess p false = (sess, 0, some .writeTimeout))

/-- C4: Stream.Write on an already locally-closed stream returns a
stream-closed failure and enqueues nothing; on an open stream with
zero-length input it returns success `(0, nil)` and enqueues nothing;
otherwise it enqueues exactly one DATA frame (the 10-byte header
followed by the full payload, as one single unit passed to the session's
enqueue), propagates the enqueue's failure (write timeout or session
closed) while enqueueing nothing, and returns the full input length on
success. -/
theorem c4_stream_write (st : StreamState) (sess : Session) (p : List Nat)
    (a : Bool) : StreamWriteClaim st sess p a := by
  refine ⟨?_, ?_, ?_, ?_, ?_⟩
  · intro h
    unfold StreamState.write
    rw [if_pos h]
  · intro h hp
    subst hp
    unfold StreamState.write
    rw [if_neg (by rw [h]; exact Bool.false_ne_true)]
    rfl
  · intro h hp hsc
    have hp0 : ¬ p.length = 0 := by simpa using hp
    simp [StreamState.write, Session.write, h, hp0, hsc]
  · intro h hp hsc
    have hp0 : ¬ p.length = 0 := by simpa using hp
    simp [StreamState.write, Session.write, h, hp0, hsc]
  · intro h hp hsc
    have hp0 : ¬ p.length = 0 := by simpa using hp
    simp [StreamState.write, Session.write, h, hp0, hsc]

/-- Witness for C4 at a concrete stream, session and payload. -/
theorem c4_stream_write_witness :
    StreamWriteClaim (newStream 5) (newSession true 256) [9, 8] true :=
  c4_stream_write (newStream 5) (newSession true 256) [9, 8] true

/-! ### C5: idempotent Close for session and stream -/

/-- The statement of C5, instantiated at one session (for session
Close), one stream with its session (for stream Close): the first
session Close marks the session closed, walks the registry marking every
stream closed and closing its buffer, signals both shutdown channels,
closes the connection and returns that result; the second session Close
returns nil and changes nothing; the first stream Close marks the stream
closed and enqueues one FIN frame; later stream Close calls return nil
and enqueue nothing. -/
def CloseIdempotentClaim (s : Session) (st : StreamState) (sess : Session) :
    Prop :=
  (s.closed = false →
    (s.close).2 = s.connCloseErr ∧
    (s.close).1.closed = true ∧
    (s.close).1.readerShutdown = true ∧
    (s.close).1.writerShutdown = true ∧
    (s.close).1.connClosed = true ∧
    (s.close).1.streams = s.streams.map (fun kv =>
      (kv.1, { kv.2 with closed := true, readBuf := kv.2.readBuf.close })) ∧
    (∀ kv ∈ (s.close).1.streams,
      kv.2.closed = true ∧ kv.2.readBuf.closed = true)) ∧
  ((s.close).1.close = ((s.close).1, none)) ∧
  (s.closed = true → s.close = (s, none)) ∧
  (st.closed = false → sess.closed = false →
    (st.close sess true).1.closed = true ∧
    (st.close sess true).2.1 = { sess with writeQueue :=
      sess.writeQueue ++ [mkHeader typeFIN 0 st.id 0] } ∧
    (st.close sess true).2.2 = none) ∧
  (st.closed = true → st.close sess true = (st, sess, none))

/-- C5: Close() called twice on the same session or on the same stream
performs the closing side effects only once: the first session Close
marks the session closed, marks every registered stream closed and
closes its buffer, signals both the reader-shutdown and writer-shutdown
channels, closes the underlying connection and returns that
connection-close result, while the second call returns nil without
repeating any of these effects; the first stream Close marks the stream
closed and emits one FIN frame, while later calls return nil without
emitting anything. -/
theorem c5_close_idempotent (s : Session) (st : StreamState) (sess : Session) :
    CloseIdempotentClaim s st sess := by
  refine ⟨?_, ?_, ?_, ?_, ?_⟩
  · intro hs
    unfold Session.close
    rw [if_neg (by rw [hs]; exact Bool.false_ne_true)]
    refine ⟨rfl, rfl, rfl, rfl, rfl, rfl, ?_⟩
    intro kv hm
    rcases List.mem_map.mp hm with ⟨kv0, _, rfl⟩
    exact ⟨rfl, (Buffer.close_spec kv0.2.readBuf).1⟩
  · by_cases hs : s.closed = true
    · simp [Session.close, hs]
    · have h1 : (s.close).1.closed = true := by
        unfold Session.close
        rw [if_neg hs]
      generalize hgen : (s.close).1 = t at h1 ⊢
      unfold Session.close
      rw [if_pos h1]
  · intro hs
    unfold Session.close
    rw [if_pos hs]
  · intro hst hsc
    unfold StreamState.close
    rw [if_neg (by rw [hst]; exact Bool.false_ne_true)]
    unfold Session.write
    rw [if_neg (by rw [hsc]; exact Bool.false_ne_true), if_pos rfl]
    exact ⟨rfl, rfl, rfl⟩
  · intro hst
    unfold StreamState.close
    rw [if_pos hst]

/-- Witness for C5 at a session holding one registered stream. -/
theorem c5_close_idempotent_witness :
    CloseIdempotentClaim ((newSession false 256).handleSYN 1 true)
      (newStream 2) (newSession false 256) :=
  c5_close_idempotent ((newSession false 256).handleSYN 1 true)
    (newStream 2) (newSession false 256)

/-! ### C6: handleSYN dispatch -/

/-- Normal form of `handleSYN` for a fresh stream ID on an open session
whose accept queue still has room: the stream is registered, the ACK is
enqueued, and the stream is placed on the accept queue. -/
theorem handleSYN_room (s : Session) (sid : Nat)
    (hlook : lookupStream s.streams sid = none) (hs : s.closed = false)
    (hq : s.acceptCh.length < s.acceptBacklog) :
    s.handleSYN sid true =
      { s with streams := s.streams ++ [(sid, newStream sid)],
               writeQueue := s.writeQueue ++ [mkHeader typeACK 0 sid 0],
               acceptCh := s.acceptCh ++ [sid] } := by
  simp [Session.handleSYN, hlook, Session.write, hs, hq,
    insertStream_of_none s.streams sid (newStream sid) hlook]

/-- Normal form of `handleSYN` for a fresh stream ID on an open session
whose accept queue is full: the ACK was already enqueued, but the
registration is rolled back — registry and accept queue end up exactly
as before. -/
theorem handleSYN_full (s : Session) (sid : Nat)
    (hlook : lookupStream s.streams sid = none) (hs : s.closed = false)
    (hq : ¬ s.acceptCh.length < s.acceptBacklog) :
    s.handleSYN sid true =
      { s with writeQueue := s.writeQueue ++ [mkHeader typeACK 0 sid 0] } := by
  simp [Session.handleSYN, hlook, Session.write, hs, hq,
    insertStream_of_none s.streams sid (newStream sid) hlook,
    eraseStream_append_of_none s.streams sid (newStream sid) hlook]

/-- The statement of C6, instantiated at one session and one inbound
SYN stream ID: a duplicate SYN is ignored entirely; a fresh SYN
registers the stream, enqueues one ACK for that ID, and offers the
stream to the bounded accept queue — when the queue has room the stream
stays registered and queued, and when the queue is full the
registration is rolled back (registry and accept queue both exactly as
before, so the registry is never corrupted) with no further frame
beyond the already-enqueued ACK. -/
def HandleSynClaim (s : Session) (sid : Nat) : Prop :=
  ((lookupStream s.streams sid).isSome = true →
    s.handleSYN sid true = s ∧ s.handleSYN sid false = s) ∧
  (lookupStream s.streams sid = none → s.closed = false →
    ((s.handleSYN sid true).writeQueue
        = s.writeQueue ++ [mkHeader typeACK 0 sid 0]) ∧
    (s.acceptCh.length < s.acceptBacklog →
      (s.handleSYN sid true).streams = s.streams ++ [(sid, newStream sid)] ∧
      lookupStream (s.handleSYN sid true).streams sid = some (newStream sid) ∧
      (s.handleSYN sid true).acceptCh = s.acceptCh ++ [sid]) ∧
    (s.acceptBacklog ≤ s.acceptCh.length →
      (s.handleSYN sid true).streams = s.streams ∧
      (s.handleSYN sid true).acceptCh = s.acceptCh))

/-- C6: when the reader loop dispatches a SYN frame, an already
registered stream ID is ignored without redefining the existing stream;
otherwise a new stream is registered, one ACK frame for that ID is
enqueued, and the stream is offered to the bounded accept queue; if the
queue is full, the stream's registration is rolled back, it is dropped
without any further frame being sent to notify the peer, and the
registry ends up exactly as before — so offering more SYNs than
AcceptBacklog leaves the registry uncorrupted. -/
theorem c6_handle_syn (s : Session) (sid : Nat) : HandleSynClaim s sid := by
  refine ⟨?_, ?_⟩
  · intro h
    constructor <;> (unfold Session.handleSYN; rw [if_pos h])
  · intro hlook hs
    by_cases hq : s.acceptCh.length < s.acceptBacklog
    · rw [handleSYN_room s sid hlook hs hq]
      refine ⟨rfl, fun _ => ⟨rfl, ?_, rfl⟩, fun h => absurd hq (by omega)⟩
      exact lookupStream_append_self s.streams sid (newStream sid) hlook
    · rw [handleSYN_full s sid hlook hs hq]
      exact ⟨rfl, fun h => absurd h hq, fun _ => ⟨rfl, rfl⟩⟩

/-- Witness for C6 at a fresh server session and SYN for stream 2. -/
theorem c6_handle_syn_witness : HandleSynClaim (newSession true 256) 2 :=
  c6_handle_syn (newSession true 256) 2

/-! ### C7: handleData dispatch -/

/-- The statement of C7 as amended, instantiated at one session, the
stream registered under the frame's ID (when present), the frame fields
and the remaining wire bytes: a DATA frame for an unknown stream ID
consumes exactly `length` bytes off the wire and changes nothing else;
for a registered stream exactly `length` bytes are consumed and handed
to the stream's buffer `Write` — which appends them when the buffer is
open, and discards them (returning an ignored error) when the buffer
has already been closed. -/
def HandleDataClaim (s : Session) (st : StreamState)
    (sid flags length : Nat) (wire : List Nat) : Prop :=
  (lookupStream s.streams sid = none →
    s.handleData sid flags length wire = (s, wire.drop length)) ∧
  (lookupStream s.streams sid = some st → length ≤ wire.length →
    (s.handleData sid flags length wire).2 = wire.drop length ∧
    lookupStream (s.handleData sid flags length wire).1.streams sid
      = some { st with readBuf := (st.readBuf.write (wire.take length)).1 } ∧
    (st.readBuf.closed = false → st.readBuf.wf →
      ((st.readBuf.write (wire.take length)).1).unread
        = st.readBuf.unread ++ wire.take length) ∧
    (st.readBuf.closed = true →
      (st.readBuf.write (wire.take length)).1 = st.readBuf))

/-- C7 (amended): a DATA frame whose stream ID is not in the registry
still has exactly its declared `length` payload bytes read off the
connection and discarded, so the wire stays frame-aligned; when the
stream is registered, exactly `length` payload bytes are read and
passed to the stream's buffer, which appends them when it is still
open — if the buffer was already closed (e.g., after a FIN), the bytes
are still consumed off the wire but the buffer write fails silently and
the bytes are dropped. -/
theorem c7_handle_data (s : Session) (st : StreamState)
    (sid flags length : Nat) (wire : List Nat) :
    HandleDataClaim s st sid flags length wire := by
  refine ⟨?_, ?_⟩
  · intro hlook
    unfold Session.handleData
    simp only [hlook]
    split
    · rfl
    · next h =>
        have : length = 0 := by omega
        subst this
        rfl
  · intro hlook hlen
    unfold Session.handleData
    simp only [hlook]
    by_cases hl : 0 < length
    · rw [if_pos hl, if_neg (by omega)]
      refine ⟨rfl, lookupStream_insert_self _ _ _, fun hopen hwf =>
        (st.readBuf.write_spec (wire.take length) hwf hopen).2.2.2.2.2.2.2,
        fun hcl => ?_⟩
      have htl : ¬ (wire.take length).length = 0 := by
        rw [List.length_take]
        omega
      unfold Buffer.write
      rw [if_neg htl, if_pos hcl]
    · rw [if_neg hl]
      have hl0 : length = 0 := by omega
      subst hl0
      refine ⟨rfl, by rw [hlook]; exact rfl, fun hopen hwf => ?_,
        fun hcl => rfl⟩
      show st.readBuf.unread = st.readBuf.unread ++ []
      simp

/-- Witness for C7's amended statement: a DATA frame for unregistered
stream 9 on a fresh session, and a DATA frame for a registered open
stream. -/
theorem c7_handle_data_witness :
    HandleDataClaim ((newSession true 256).handleSYN 2 true) (newStream 2)
      2 0 1 [7, 8] :=
  c7_handle_data ((newSession true 256).handleSYN 2 true) (newStream 2)
    2 0 1 [7, 8]

/-- Counterexample to C7 as stated: in `finScenario` (stream 2 got SYN,
one DATA byte, then FIN), a further DATA frame carrying byte `9` for the
still-registered stream 2 has its payload consumed off the wire, but
the byte is NOT appended to the stream's buffer — the buffer is closed,
so its unread content stays `[7]`. -/
theorem c7_data_dropped_counterexample :
    (finScenario.handleData 2 0 1 [9]).2 = [] ∧
    (lookupStream (finScenario.handleData 2 0 1 [9]).1.streams 2).isSome
      = true ∧
    ((lookupStream (finScenario.handleData 2 0 1 [9]).1.streams 2).getD
      (newStream 0)).readBuf.unread = [7] := by decide

end Yamux
